import Mathlib

/-!
Shallow embedding of the video-frame-extractor repository
(src/frame_extraction_strategy.py, src/video_frame_extractor.py, src/utils.py).

Python floats are modelled as rationals (ℚ); Python `int(x)` is truncation
toward zero; dictionaries are association lists `List (String × Val)`;
functions that can raise return `Except String _`; the nondeterminism of
`random.sample(range(a, b), k)` is modelled by an explicit `sampler`
parameter, with the documented contract of `random.sample` (exact length,
no repetition, elements drawn from the population) taken as hypotheses.
-/

namespace VFE

/-- Decidable equality for `Except`, so concrete runs can be checked by
`decide`. -/
instance {ε α : Type} [DecidableEq ε] [DecidableEq α] : DecidableEq (Except ε α)
  | .ok x, .ok y => decidable_of_iff (x = y) (by simp)
  | .ok _, .error _ => isFalse (by simp)
  | .error _, .ok _ => isFalse (by simp)
  | .error e, .error f => decidable_of_iff (e = f) (by simp)

/-- Python `int(x)` applied to a rational: truncation toward zero. -/
def pyInt (q : ℚ) : ℤ :=
  q.num.tdiv (q.den : ℤ)

/-- Python `str.lower()`: per-character lowercasing. -/
def py_lower (s : String) : String :=
  String.mk (s.data.map Char.toLower)

/-- A value stored in a metadata dictionary: a non-numeric string, a float,
or an int.  (The string fields this program stores — codec name, resolution —
are never numeric strings, so `float()` conversion of a `vs` value fails.) -/
inductive Val
  | vs (s : String)
  | vq (q : ℚ)
  | vi (n : ℤ)
deriving DecidableEq

/-- Python `float(v)` on a dictionary value: succeeds on numbers, fails on the
non-numeric strings this program stores. -/
def float_of_val : Val → Option ℚ
  | .vq q => some q
  | .vi n => some (n : ℚ)
  | .vs _ => none

/-- Embeds `FrameExtractionStrategy._validate_avg_fps` (frame_extraction_strategy.py
lines 86-106).  `none` metadata covers both `metadata is None` and the absent
key, matching the combined check in the source. -/
def validate_avg_fps (metadata : Option (List (String × Val))) : Except String ℚ :=
  match metadata with
  | none => .error "Metadata explicitly requires avg_fps key."
  | some m =>
    match m.lookup "avg_fps" with
    | none => .error "Metadata explicitly requires avg_fps key."
    | some v =>
      match float_of_val v with
      | none => .error "Invalid avg_fps value in metadata."
      | some avg_fps =>
        if avg_fps ≤ 0 then .error "Invalid avg_fps value. Must be positive."
        else .ok avg_fps

/-- Embeds `FrameExtractionStrategy._validate_time_range` (frame_extraction_strategy.py
lines 108-139). -/
def validate_time_range (metadata : Option (List (String × Val)))
    (start_time end_time : Option ℚ) : Except String (ℚ × ℚ) :=
  match metadata with
  | none => .error "Metadata explicitly requires valid duration key."
  | some m =>
    match m.lookup "duration" with
    | none => .error "Metadata explicitly requires valid duration key."
    | some v =>
      match float_of_val v with
      | none => .error "could not convert value to float"
      | some duration =>
        if duration ≤ 0 then .error "Invalid video duration from metadata."
        else
          let actual_start_time := start_time.getD 0
          let actual_end_time := end_time.getD duration
          if actual_start_time < 0 ∨ actual_start_time ≥ duration then
            .error "Start time must be within video duration."
          else if actual_end_time ≤ actual_start_time ∨ actual_end_time > duration then
            .error "End time must be greater than start time and within video duration."
          else .ok (actual_start_time, actual_end_time)

/-- The runtime value passed as `fps`: an `int` instance or something else
(`isinstance(fps, int)` fails on the latter). -/
inductive FpsArg
  | intv (n : ℤ)
  | notInt
deriving DecidableEq

/-- Embeds `FrameExtractionStrategy._validate_fps` (frame_extraction_strategy.py
lines 141-156). -/
def validate_fps (fps : Option FpsArg) : Except String ℤ :=
  match fps with
  | none => .error "Provided fps parameter is None but is explicitly required."
  | some .notInt => .error "Invalid fps value. Must be a positive integer."
  | some (.intv n) =>
    if n ≤ 0 then .error "Invalid fps value. Must be a positive integer."
    else .ok n

/-- Embeds `FixedRandomFramesStrategy._select_random_frames` (frame_extraction_strategy.py
lines 290-317).  `sampler a b k` stands for `random.sample(range(a, b), k)`;
Python `sorted` is rendered by `List.insertionSort (· ≤ ·)`. -/
def select_random_frames (sampler : ℤ → ℤ → ℕ → List ℤ) (fps : ℤ) (avg_fps : ℚ)
    (start_time end_time : ℚ) : List ℤ :=
  let start_frame := pyInt (start_time * avg_fps)
  let end_frame := pyInt (end_time * avg_fps)
  let frame_range := end_frame - start_frame
  if frame_range ≤ 0 then []
  else
    let num_frames_to_extract := min fps frame_range
    List.insertionSort (· ≤ ·) (sampler start_frame end_frame num_frames_to_extract.toNat)

/-- Embeds `FixedRandomFramesStrategy._build_select_filter` (frame_extraction_strategy.py
lines 319-327). -/
def build_select_filter (frame_indices : List ℤ) : String :=
  String.intercalate "+" (frame_indices.map fun idx => "eq(n\\," ++ toString idx ++ ")")

/-- The three concrete strategy classes (the direct subclasses of
`FrameExtractionStrategy`). -/
inductive StrategyClass
  | allFrames
  | uniformFrames
  | fixedRandomFrames
deriving DecidableEq

/-- The per-subclass STRATEGY_NAME attribute. -/
def strategy_name : StrategyClass → String
  | .allFrames => "all"
  | .uniformFrames => "uniform"
  | .fixedRandomFrames => "fixed_random"

/-- Embeds the list `FrameExtractionStrategy.__subclasses__()`. -/
def strategy_subclasses : List StrategyClass :=
  [.allFrames, .uniformFrames, .fixedRandomFrames]

/-- Embeds `get_strategy_class` (utils.py lines 14-26). -/
def get_strategy_class (name : String) : Except String StrategyClass :=
  let n := py_lower name
  match strategy_subclasses.find? (fun cls => strategy_name cls == n) with
  | some cls => .ok cls
  | none => .error ("No strategy found for name: " ++ n)

/-- The ffmpeg invocation assembled by `common_frame_extraction_logic`
(frame_extraction_strategy.py lines 46-75): validated time window, the
strategy-specific filter arguments, and whether `-frame_pts true` is added
(it is, unless `reset_indices`). -/
structure FfmpegCmd where
  start_time : ℚ
  end_time : ℚ
  filter_args : List String
  frame_pts : Bool
deriving DecidableEq

/-- A single-quote character, used in the `select` filter argument. -/
def squote : String :=
  String.singleton (Char.ofNat 39)

/-- The `extract_frames` body of each strategy class up to the point where it
hands the ffmpeg command to `common_frame_extraction_logic`
(frame_extraction_strategy.py lines 167-288): validations in source order,
then the strategy-specific filter arguments. -/
def strategy_run (cls : StrategyClass) (sampler : ℤ → ℤ → ℕ → List ℤ)
    (fps : Option FpsArg) (metadata : Option (List (String × Val)))
    (start_time end_time : Option ℚ) (reset_indices : Bool) : Except String FfmpegCmd :=
  match cls with
  | .allFrames => do
    let (s, e) ← validate_time_range metadata start_time end_time
    pure ⟨s, e, ["-fps_mode", "passthrough"], !reset_indices⟩
  | .uniformFrames => do
    let f ← validate_fps fps
    let avg_fps ← validate_avg_fps metadata
    if (f : ℚ) > avg_fps then
      .error ("Requested FPS (" ++ toString f ++ ") exceeds source video FPS.")
    else do
      let (s, e) ← validate_time_range metadata start_time end_time
      pure ⟨s, e, ["-vf", "fps=" ++ toString f], !reset_indices⟩
  | .fixedRandomFrames => do
    let f ← validate_fps fps
    let avg_fps ← validate_avg_fps metadata
    let (s, e) ← validate_time_range metadata start_time end_time
    let frame_indices := select_random_frames sampler f avg_fps s e
    let select_filter := build_select_filter frame_indices
    pure ⟨s, e, ["-vf", "select=" ++ squote ++ select_filter ++ squote, "-vsync", "vfr"],
      !reset_indices⟩

/-- The converted stream fields read by `VideoFrameExtractor.get_metadata`
(video_frame_extractor.py lines 105-125), after the `stream.get` defaults and
numeric conversions have been applied.  A conversion or eval failure is
represented by `ProbeOutcome.parseFail` instead. -/
structure StreamData where
  codec_name : Option String
  width : Option ℤ
  height : Option ℤ
  avg_frame_rate : ℚ
  duration : ℚ
  nb_frames : ℤ
  bit_rate : ℤ
deriving DecidableEq

/-- Renders a width or height field, defaulting to the string Unknown as
`stream.get` does. -/
def opt_dim_string : Option ℤ → String
  | some n => toString n
  | none => "Unknown"

/-- The resolution entry, width and height joined by the letter x. -/
def resolution_string (w h : Option ℤ) : String :=
  opt_dim_string w ++ "x" ++ opt_dim_string h

/-- The `video_info` dictionary built by `get_metadata`
(video_frame_extractor.py lines 118-125).  `bit_rate // 1000` is Python floor
division. -/
def video_info (st : StreamData) : List (String × Val) :=
  [("codec", .vs (st.codec_name.getD "Unknown")),
   ("resolution", .vs (resolution_string st.width st.height)),
   ("avg_fps", .vq st.avg_frame_rate),
   ("duration", .vq st.duration),
   ("total_frames", .vi st.nb_frames),
   ("bitrate", .vi (st.bit_rate.ediv 1000))]

/-- Outcome of the external probe step inside the try block of `get_metadata`:
the subprocess call raised, the JSON parse / eval / numeric conversion raised,
or stream data was obtained. -/
inductive ProbeOutcome
  | procFail
  | parseFail
  | ok (st : StreamData)

/-- The body of the try block of `get_metadata` (video_frame_extractor.py lines
105-129): each raising step is an `Except.error`.  `if fields:` is Python
truthiness, so an empty list behaves like `None`.  The dict comprehension
`\x7bkey: video_info[key] for key in fields if key in video_info\x7d` is the
`filterMap`; duplicate keys in `fields` repeat identical pairs, which leaves
every `lookup` (the dictionary observable) unchanged. -/
def get_metadata_inner (outcome : ProbeOutcome) (fields : Option (List String)) :
    Except String (List (String × Val)) :=
  match outcome with
  | .procFail => .error "Error retrieving metadata: probe invocation raised."
  | .parseFail => .error "Error retrieving metadata: parsing or conversion raised."
  | .ok st =>
    let info := video_info st
    match fields with
    | some fs =>
      if fs.isEmpty then .ok info
      else .ok (fs.filterMap fun key => (info.lookup key).map fun v => (key, v))
    | none => .ok info

/-- Embeds `VideoFrameExtractor.get_metadata` (video_frame_extractor.py lines 99-133):
the `except Exception` handler turns every failure into `None`. -/
def get_metadata (outcome : ProbeOutcome) (fields : Option (List String)) :
    Option (List (String × Val)) :=
  (get_metadata_inner outcome fields).toOption

/-- Embeds `VALID_VIDEO_EXTENSIONS` (utils.py line 8). -/
def valid_video_extensions : List String :=
  [".mp4", ".avi", ".mov", ".mkv", ".webm"]

/-- The constructor arguments of `VideoFrameExtractor.__init__` that its
validation examines.  Filesystem facts (`os.path.exists`, the
`validate_output_path` outcome) are Booleans; `output_dir_ok = none` means no
output directory was passed. -/
structure InitArgs where
  path_exists : Bool
  suffix : String
  allow_any_extension : Bool
  output_dir_ok : Option Bool
  fps : Option ℤ
  start_time : Option ℚ
  end_time : Option ℚ

/-- The `end_time <= start_time` check, applied only when both are given. -/
def end_le_start : Option ℚ → Option ℚ → Bool
  | some s, some e => e ≤ s
  | _, _ => false

/-- The validation sequence of `VideoFrameExtractor.__init__`
(video_frame_extractor.py lines 48-76), in source order. -/
def init_validate (a : InitArgs) : Except String Unit :=
  if !a.path_exists then
    .error "Video path does not exist."
  else if !a.allow_any_extension && !(valid_video_extensions.contains (py_lower a.suffix)) then
    .error "Unsupported video format."
  else if a.output_dir_ok == some false then
    .error "Failed to create output directory."
  else if a.fps.any (fun f => f ≤ 0) then
    .error "FPS must be positive."
  else if a.start_time.any (fun s => s < 0) then
    .error "Start time cannot be negative."
  else if a.end_time.any (fun e => e < 0) then
    .error "End time cannot be negative."
  else if end_le_start a.start_time a.end_time then
    .error "End time must be greater than start time."
  else .ok ()

/-- An externally observable action of a run: invoking the probe (`ffprobe`)
or the extraction command (`ffmpeg`). -/
inductive Event
  | probeCall
  | ffmpegCall (cmd : FfmpegCmd)
deriving DecidableEq

/-- Everything a full run depends on: constructor arguments, chosen strategy,
probe outcome, the random source, and `reset_indices`. -/
structure RunInput where
  args : InitArgs
  strategy : StrategyClass
  probe : ProbeOutcome
  sampler : ℤ → ℤ → ℕ → List ℤ
  reset_indices : Bool

/-- A full run: `VideoFrameExtractor.__init__` followed by `extract_frames`
(video_frame_extractor.py lines 20-97).  Returns the external commands issued,
in order, and the error that aborted the run, if any. -/
def extractor_run (r : RunInput) : List Event × Option String :=
  match init_validate r.args with
  | .error e => ([], some e)
  | .ok _ =>
    match get_metadata r.probe (some ["duration", "avg_fps"]) with
    | none => ([.probeCall], some "Could not retrieve video metadata.")
    | some md =>
      match strategy_run r.strategy r.sampler (r.args.fps.map FpsArg.intv) (some md)
          r.args.start_time r.args.end_time r.reset_indices with
      | .error e => ([.probeCall], some e)
      | .ok cmd => ([.probeCall, .ffmpegCall cmd], none)

/-! Helper lemmas shared by the proofs below. -/

theorem except_bind_ok {ε α β : Type} (a : α) (f : α → Except ε β) :
    (Except.ok a : Except ε α) >>= f = f a :=
  rfl

theorem except_bind_error {ε α β : Type} (e : ε) (f : α → Except ε β) :
    (Except.error e : Except ε α) >>= f = .error e :=
  rfl

/-- C3: for a metadata dictionary whose `duration` entry is a positive number
`d`, `_validate_time_range` succeeds exactly when the defaulted times
(`s = 0` when `start_time` is `None`, `e = d` when `end_time` is `None`)
satisfy `0 ≤ s < d` and `s < e ≤ d`, in which case it returns that pair; it
raises `ValueError` exactly when the metadata is missing or lacks `duration`,
when `d ≤ 0`, or when `s < 0`, `s ≥ d`, `e ≤ s`, or `e > d`. -/
theorem validate_time_range_spec :
    (∀ s e, ∃ msg, validate_time_range none s e = .error msg)
    ∧ (∀ (m : List (String × Val)) (s e : Option ℚ), m.lookup "duration" = none →
        ∃ msg, validate_time_range (some m) s e = .error msg)
    ∧ (∀ (m : List (String × Val)) (d : ℚ) (s e : Option ℚ),
        m.lookup "duration" = some (.vq d) → d ≤ 0 →
        ∃ msg, validate_time_range (some m) s e = .error msg)
    ∧ (∀ (m : List (String × Val)) (d : ℚ) (s e : Option ℚ),
        m.lookup "duration" = some (.vq d) → 0 < d →
        (validate_time_range (some m) s e = .ok (s.getD 0, e.getD d)
          ↔ 0 ≤ s.getD 0 ∧ s.getD 0 < d ∧ s.getD 0 < e.getD d ∧ e.getD d ≤ d)
        ∧ ((∃ msg, validate_time_range (some m) s e = .error msg)
          ↔ s.getD 0 < 0 ∨ d ≤ s.getD 0 ∨ e.getD d ≤ s.getD 0 ∨ d < e.getD d)) := by
  refine ⟨fun s e => ⟨_, rfl⟩, fun m s e hm => ?_, fun m d s e hm hd => ?_, fun m d s e hm hd => ?_⟩
  · simp only [validate_time_range, hm]
    exact ⟨_, rfl⟩
  · simp only [validate_time_range, hm, float_of_val, if_pos hd]
    exact ⟨_, rfl⟩
  · simp only [validate_time_range, hm, float_of_val, if_neg (not_le.mpr hd)]
    constructor
    · constructor
      · intro hok
        split_ifs at hok with h1 h2
        push_neg at h1 h2
        exact ⟨h1.1, h1.2, h2.1, h2.2⟩
      · rintro ⟨hs0, hsd, hse, hed⟩
        rw [if_neg (by push_neg; exact ⟨hs0, hsd⟩), if_neg (by push_neg; exact ⟨hse, hed⟩)]
    · constructor
      · rintro ⟨msg, herr⟩
        split_ifs at herr with h1 h2
        · rcases h1 with h1 | h1
          · exact Or.inl h1
          · exact Or.inr (Or.inl h1)
        · rcases h2 with h2 | h2
          · exact Or.inr (Or.inr (Or.inl h2))
          · exact Or.inr (Or.inr (Or.inr h2))
      · intro hbad
        rcases hbad with hbad | hbad | hbad | hbad
        · exact ⟨_, by rw [if_pos (Or.inl hbad)]⟩
        · exact ⟨_, by rw [if_pos (Or.inr hbad)]⟩
        · by_cases h1 : s.getD 0 < 0 ∨ s.getD 0 ≥ d
          · exact ⟨_, by rw [if_pos h1]⟩
          · exact ⟨_, by rw [if_neg h1, if_pos (Or.inl hbad)]⟩
        · by_cases h1 : s.getD 0 < 0 ∨ s.getD 0 ≥ d
          · exact ⟨_, by rw [if_pos h1]⟩
          · exact ⟨_, by rw [if_neg h1, if_pos (Or.inr hbad)]⟩

/-- Witness for C3: duration 10, window [2, 8] validates to `(2, 8)`. -/
theorem validate_time_range_spec_witness :
    validate_time_range (some [("duration", Val.vq 10)]) (some 2) (some 8) = .ok (2, 8) :=
  (validate_time_range_spec.2.2.2 [("duration", Val.vq 10)] 10 (some 2) (some 8)
    (by decide) (by decide)).1.mpr (by decide)

/-- C7: `_validate_fps` errors exactly when `fps` is `None`, not an `int`
instance, or not positive, and otherwise returns it unchanged;
`_validate_avg_fps` errors exactly when the metadata is `None`, lacks
`avg_fps`, holds a value `float()` cannot convert, or converts to a
non-positive number, and otherwise returns the converted float. -/
theorem validate_fps_avg_fps_spec :
    (∀ x : Option FpsArg, (∃ msg, validate_fps x = .error msg)
      ↔ x = none ∨ x = some .notInt ∨ ∃ n, n ≤ 0 ∧ x = some (.intv n))
    ∧ (∀ n : ℤ, 0 < n → validate_fps (some (.intv n)) = .ok n)
    ∧ (∀ md : Option (List (String × Val)), (∃ msg, validate_avg_fps md = .error msg)
      ↔ md = none ∨ (∃ m, md = some m ∧ m.lookup "avg_fps" = none)
        ∨ (∃ m v, md = some m ∧ m.lookup "avg_fps" = some v ∧ float_of_val v = none)
        ∨ (∃ m v q, md = some m ∧ m.lookup "avg_fps" = some v ∧ float_of_val v = some q ∧ q ≤ 0))
    ∧ (∀ (m : List (String × Val)) (v : Val) (q : ℚ), m.lookup "avg_fps" = some v →
        float_of_val v = some q → 0 < q → validate_avg_fps (some m) = .ok q) := by
  refine ⟨fun x => ?_, fun n hn => ?_, fun md => ?_, fun m v q hv hq hpos => ?_⟩
  · constructor
    · rintro ⟨msg, herr⟩
      match x with
      | none => exact Or.inl rfl
      | some .notInt => exact Or.inr (Or.inl rfl)
      | some (.intv n) =>
        refine Or.inr (Or.inr ⟨n, ?_, rfl⟩)
        by_contra hcon
        rw [validate_fps, if_neg hcon] at herr
        exact absurd herr (by simp)
    · rintro (rfl | rfl | ⟨n, hn, rfl⟩)
      · exact ⟨_, rfl⟩
      · exact ⟨_, rfl⟩
      · exact ⟨_, by rw [validate_fps, if_pos hn]⟩
  · rw [validate_fps, if_neg (not_le.mpr hn)]
  · constructor
    · rintro ⟨msg, herr⟩
      match md with
      | none => exact Or.inl rfl
      | some m =>
        match hl : m.lookup "avg_fps" with
        | none => exact Or.inr (Or.inl ⟨m, rfl, hl⟩)
        | some v =>
          match hf : float_of_val v with
          | none => exact Or.inr (Or.inr (Or.inl ⟨m, v, rfl, hl, hf⟩))
          | some q =>
            refine Or.inr (Or.inr (Or.inr ⟨m, v, q, rfl, hl, hf, ?_⟩))
            by_contra hcon
            simp only [validate_avg_fps, hl, hf, if_neg hcon] at herr
            exact absurd herr (by simp)
    · rintro (rfl | ⟨m, rfl, hl⟩ | ⟨m, v, rfl, hl, hf⟩ | ⟨m, v, q, rfl, hl, hf, hq⟩)
      · exact ⟨_, rfl⟩
      · have h : validate_avg_fps (some m) = .error "Metadata explicitly requires avg_fps key." := by
          simp only [validate_avg_fps, hl]
        exact ⟨_, h⟩
      · have h : validate_avg_fps (some m) = .error "Invalid avg_fps value in metadata." := by
          simp only [validate_avg_fps, hl, hf]
        exact ⟨_, h⟩
      · have h : validate_avg_fps (some m) = .error "Invalid avg_fps value. Must be positive." := by
          simp only [validate_avg_fps, hl, hf, if_pos hq]
        exact ⟨_, h⟩
  · simp only [validate_avg_fps, hv, hq, if_neg (not_le.mpr hpos)]

/-- Witness for C7: `fps = 24` validates to `24`; a metadata dictionary with
`avg_fps = 30` validates to `30`. -/
theorem validate_fps_avg_fps_spec_witness :
    validate_fps (some (.intv 24)) = .ok 24
    ∧ validate_avg_fps (some [("avg_fps", Val.vq 30)]) = .ok 30 :=
  ⟨validate_fps_avg_fps_spec.2.1 24 (by decide),
   validate_fps_avg_fps_spec.2.2.2 [("avg_fps", Val.vq 30)] (Val.vq 30) 30
     (by decide) (by decide) (by decide)⟩

/-- `get_strategy_class` as an explicit case split on the lowered name. -/
theorem get_strategy_class_eq (name : String) :
    get_strategy_class name =
      if py_lower name = "all" then .ok .allFrames
      else if py_lower name = "uniform" then .ok .uniformFrames
      else if py_lower name = "fixed_random" then .ok .fixedRandomFrames
      else .error ("No strategy found for name: " ++ py_lower name) := by
  by_cases h1 : py_lower name = "all"
  · simp [get_strategy_class, strategy_subclasses, List.find?, strategy_name, h1]
  · by_cases h2 : py_lower name = "uniform"
    · simp [get_strategy_class, strategy_subclasses, List.find?, strategy_name, h1, h2,
        Ne.symm h1]
    · by_cases h3 : py_lower name = "fixed_random"
      · simp [get_strategy_class, strategy_subclasses, List.find?, strategy_name, h1, h2, h3,
          Ne.symm h1, Ne.symm h2]
      · have e1 : ("all" == py_lower name) = false := beq_eq_false_iff_ne.mpr (Ne.symm h1)
        have e2 : ("uniform" == py_lower name) = false := beq_eq_false_iff_ne.mpr (Ne.symm h2)
        have e3 : ("fixed_random" == py_lower name) = false := beq_eq_false_iff_ne.mpr (Ne.symm h3)
        simp [get_strategy_class, strategy_subclasses, List.find?, strategy_name, e1, e2, e3,
          h1, h2, h3]

/-- C5: `get_strategy_class` resolves a name case-insensitively (the source
lowers it first) to exactly the matching one of the three strategy classes,
and raises `ValueError` for every other name. -/
theorem get_strategy_class_spec (name : String) :
    (py_lower name = "all" → get_strategy_class name = .ok .allFrames)
    ∧ (py_lower name = "uniform" → get_strategy_class name = .ok .uniformFrames)
    ∧ (py_lower name = "fixed_random" → get_strategy_class name = .ok .fixedRandomFrames)
    ∧ (∀ cls, get_strategy_class name = .ok cls → py_lower name = strategy_name cls)
    ∧ (py_lower name ≠ "all" → py_lower name ≠ "uniform" → py_lower name ≠ "fixed_random" →
        get_strategy_class name = .error ("No strategy found for name: " ++ py_lower name)) := by
  rw [get_strategy_class_eq name]
  refine ⟨fun h1 => by rw [if_pos h1],
    fun h2 => by rw [if_neg (by rw [h2]; decide), if_pos h2],
    fun h3 => by rw [if_neg (by rw [h3]; decide), if_neg (by rw [h3]; decide), if_pos h3],
    fun cls hcls => ?_,
    fun h1 h2 h3 => by rw [if_neg h1, if_neg h2, if_neg h3]⟩
  split_ifs at hcls with h1 h2 h3
  · obtain rfl : StrategyClass.allFrames = cls := by injection hcls
    exact h1
  · obtain rfl : StrategyClass.uniformFrames = cls := by injection hcls
    exact h2
  · obtain rfl : StrategyClass.fixedRandomFrames = cls := by injection hcls
    exact h3

/-- Witness for C5: mixed-case names resolve to their classes and an unknown
name raises. -/
theorem get_strategy_class_spec_witness :
    get_strategy_class "ALL" = .ok .allFrames
    ∧ get_strategy_class "Uniform" = .ok .uniformFrames
    ∧ get_strategy_class "fixed_random" = .ok .fixedRandomFrames
    ∧ get_strategy_class "bogus" = .error ("No strategy found for name: " ++ py_lower "bogus") :=
  ⟨(get_strategy_class_spec "ALL").1 (by decide),
   (get_strategy_class_spec "Uniform").2.1 (by decide),
   (get_strategy_class_spec "fixed_random").2.2.1 (by decide),
   (get_strategy_class_spec "bogus").2.2.2.2 (by decide) (by decide) (by decide)⟩

/-- C1: with a positive requested count, positive average frame rate, and a
validated window whose frame range is positive, `_select_random_frames`
returns exactly `min fps (end_frame - start_frame)` indices, where the frame
bounds are `int(start_time * avg_fps)` and `int(end_time * avg_fps)`.  The
hypothesis on `sampler` is the `random.sample` guarantee of returning exactly
the requested number of elements. -/
theorem select_random_frames_length (sampler : ℤ → ℤ → ℕ → List ℤ) (fps : ℤ)
    (avg_fps : ℚ) (start_time end_time : ℚ)
    (hsampler : ∀ a b k, (sampler a b k).length = k)
    (hfps : 0 < fps) (havg : 0 < avg_fps) (hlt : start_time < end_time)
    (hrange : 0 < pyInt (end_time * avg_fps) - pyInt (start_time * avg_fps)) :
    ((select_random_frames sampler fps avg_fps start_time end_time).length : ℤ)
      = min fps (pyInt (end_time * avg_fps) - pyInt (start_time * avg_fps)) := by
  simp only [select_random_frames]
  rw [if_neg (not_le.mpr hrange)]
  rw [List.length_insertionSort, hsampler]
  exact Int.toNat_of_nonneg (le_min (le_of_lt hfps) (le_of_lt hrange))

/-- Witness for C1: 2 frames requested from the 3-frame window [0s, 3s) at
1 fps average. -/
theorem select_random_frames_length_witness :
    ((select_random_frames (fun a _ k => (List.range k).map (fun (i : ℕ) => a + (i : ℤ)))
        2 1 0 3).length : ℤ)
      = min 2 (pyInt ((3 : ℚ) * 1) - pyInt ((0 : ℚ) * 1)) :=
  select_random_frames_length (fun a _ k => (List.range k).map (fun (i : ℕ) => a + (i : ℤ)))
    2 1 0 3 (by intro a b k; rw [List.length_map, List.length_range]) (by decide) (by decide)
    (by decide) (by rw [mul_one, mul_one]; decide)

/-- C2: under the `random.sample` guarantees (no repetition, all elements drawn
from `range(start_frame, end_frame)`), the indices `_select_random_frames`
returns are pairwise distinct, strictly ascending, and lie in the half-open
window `[int(start_time * avg_fps), int(end_time * avg_fps))`; and
`_build_select_filter` joins the `eq(n\,idx)` terms of that list, in that
ascending order, with `+`. -/
theorem select_random_frames_sorted_spec (sampler : ℤ → ℤ → ℕ → List ℤ) (fps : ℤ)
    (avg_fps : ℚ) (start_time end_time : ℚ)
    (hnodup : ∀ a b k, (sampler a b k).Nodup)
    (hmem : ∀ a b k, ∀ x ∈ sampler a b k, a ≤ x ∧ x < b) :
    (select_random_frames sampler fps avg_fps start_time end_time).Nodup
    ∧ (select_random_frames sampler fps avg_fps start_time end_time).Sorted (· < ·)
    ∧ (∀ x ∈ select_random_frames sampler fps avg_fps start_time end_time,
        pyInt (start_time * avg_fps) ≤ x ∧ x < pyInt (end_time * avg_fps))
    ∧ build_select_filter (select_random_frames sampler fps avg_fps start_time end_time)
      = String.intercalate "+"
          ((select_random_frames sampler fps avg_fps start_time end_time).map
            fun idx => "eq(n\\," ++ toString idx ++ ")") := by
  refine ⟨?_, ?_, ?_, rfl⟩ <;> simp only [select_random_frames] <;> split_ifs with hr
  · exact List.nodup_nil
  · exact (List.perm_insertionSort (· ≤ ·) _).nodup_iff.mpr (hnodup _ _ _)
  · exact List.sorted_nil
  · exact (List.sorted_insertionSort (· ≤ ·) _).lt_of_le
      ((List.perm_insertionSort (· ≤ ·) _).nodup_iff.mpr (hnodup _ _ _))
  · intro x hx
    exact absurd hx (List.not_mem_nil x)
  · intro x hx
    exact hmem _ _ _ x ((List.mem_insertionSort _).mp hx)

/-- Witness for C2: a range-respecting sampler on the window [0s, 3s) at 1
fps average. -/
theorem select_random_frames_sorted_spec_witness :
    (select_random_frames
        (fun a b k => ((List.range k).map (fun (i : ℕ) => a + (i : ℤ))).filter (fun x => x < b))
        2 1 0 3).Sorted (· < ·) :=
  (select_random_frames_sorted_spec
    (fun a b k => ((List.range k).map (fun (i : ℕ) => a + (i : ℤ))).filter (fun x => x < b))
    2 1 0 3
    (by
      intro a b k
      refine List.Nodup.filter _ (List.Nodup.map ?_ (List.nodup_range k))
      intro i j h
      simp only at h
      omega)
    (by
      intro a b k x hx
      simp only [List.mem_filter, List.mem_map, List.mem_range, decide_eq_true_eq] at hx
      obtain ⟨⟨i, hi, rfl⟩, hb⟩ := hx
      omega)).2.1

/-- C9: there are validated inputs with `start_time < end_time` whose window
spans no whole frame index: there `_select_random_frames` returns `[]`,
`_build_select_filter` returns the empty string, and the fixed-random
strategy still completes without error, issuing a select filter that matches
no frames. -/
theorem empty_window_select_spec :
    ∃ (metadata : List (String × Val)) (avg_fps : ℚ) (s e : ℚ),
      validate_time_range (some metadata) (some s) (some e) = .ok (s, e)
      ∧ s < e
      ∧ pyInt (e * avg_fps) - pyInt (s * avg_fps) ≤ 0
      ∧ (∀ sampler fps, select_random_frames sampler fps avg_fps s e = [])
      ∧ build_select_filter [] = ""
      ∧ ∀ sampler, strategy_run .fixedRandomFrames sampler (some (.intv 5)) (some metadata)
          (some s) (some e) false
          = .ok ⟨s, e, ["-vf", "select=" ++ squote ++ squote, "-vsync", "vfr"], true⟩ := by
  refine ⟨[("duration", .vq 1), ("avg_fps", .vq 1)], 1, mkRat 1 5, mkRat 4 5,
    by decide, by decide, ?_, ?_, rfl, ?_⟩
  · rw [mul_one, mul_one]
    decide
  · intro sampler fps
    simp only [select_random_frames, mul_one]
    rw [if_pos (by decide)]
  · intro sampler
    have h1 : validate_fps (some (.intv 5)) = .ok 5 := by decide
    have h2 : validate_avg_fps (some [("duration", Val.vq 1), ("avg_fps", Val.vq 1)]) = .ok 1 := by
      decide
    have h3 : validate_time_range (some [("duration", Val.vq 1), ("avg_fps", Val.vq 1)])
        (some (mkRat 1 5)) (some (mkRat 4 5)) = .ok (mkRat 1 5, mkRat 4 5) := by decide
    have h4 : select_random_frames sampler 5 1 (mkRat 1 5) (mkRat 4 5) = [] := by
      simp only [select_random_frames, mul_one]
      rw [if_pos (by decide)]
    simp only [strategy_run, h1, h2, h3, except_bind_ok, h4]
    decide

/-- C8: once `fps` and `avg_fps` validate, `UniformFramesStrategy` raises
`ValueError` whenever `fps > avg_fps` — for arbitrary time arguments, i.e.
before any time-range validation or extraction command — and requests with
`fps ≤ avg_fps` pass this check, proceeding to time-range validation. -/
theorem uniform_fps_exceeds_avg_spec (f : ℤ) (a : ℚ) (fps : Option FpsArg)
    (metadata : Option (List (String × Val)))
    (hf : validate_fps fps = .ok f) (ha : validate_avg_fps metadata = .ok a) :
    (∀ (sampler : ℤ → ℤ → ℕ → List ℤ) (s e : Option ℚ) (reset : Bool), (f : ℚ) > a →
      strategy_run .uniformFrames sampler fps metadata s e reset
        = .error ("Requested FPS (" ++ toString f ++ ") exceeds source video FPS."))
    ∧ (∀ (sampler : ℤ → ℤ → ℕ → List ℤ) (s e : Option ℚ) (reset : Bool) (p : ℚ × ℚ),
      (f : ℚ) ≤ a → validate_time_range metadata s e = .ok p →
      strategy_run .uniformFrames sampler fps metadata s e reset
        = .ok ⟨p.1, p.2, ["-vf", "fps=" ++ toString f], !reset⟩) := by
  constructor
  · intro sampler s e reset hgt
    simp only [strategy_run, hf, ha, except_bind_ok]
    rw [if_pos hgt]
  · intro sampler s e reset p hle htr
    simp only [strategy_run, hf, ha, except_bind_ok]
    rw [if_neg (not_lt.mpr hle)]
    simp only [htr, except_bind_ok]
    rfl

/-- Witness for C8: requesting 60 fps from a 30 fps source raises; requesting
24 fps proceeds. -/
theorem uniform_fps_exceeds_avg_spec_witness :
    strategy_run .uniformFrames (fun _ _ _ => []) (some (.intv 60))
      (some [("duration", Val.vq 10), ("avg_fps", Val.vq 30)]) (some 0) (some 10) false
      = .error ("Requested FPS (" ++ toString (60 : ℤ) ++ ") exceeds source video FPS.")
    ∧ strategy_run .uniformFrames (fun _ _ _ => []) (some (.intv 24))
      (some [("duration", Val.vq 10), ("avg_fps", Val.vq 30)]) (some 0) (some 10) false
      = .ok ⟨0, 10, ["-vf", "fps=" ++ toString (24 : ℤ)], true⟩ :=
  ⟨(uniform_fps_exceeds_avg_spec 60 30 (some (.intv 60))
      (some [("duration", Val.vq 10), ("avg_fps", Val.vq 30)]) (by decide) (by decide)).1
      (fun _ _ _ => []) (some 0) (some 10) false (by norm_num),
   (uniform_fps_exceeds_avg_spec 24 30 (some (.intv 24))
      (some [("duration", Val.vq 10), ("avg_fps", Val.vq 30)]) (by decide) (by decide)).2
      (fun _ _ _ => []) (some 0) (some 10) false (0, 10) (by norm_num) (by decide)⟩

/-- C4: a run validates path/time/fps first — if that validation raises, no
probe and no extraction command is issued — then invokes the probe, and
issues the extraction command only after the probe succeeded and the strategy
computed the filter arguments carried by that command. -/
theorem extractor_run_order_spec (r : RunInput) :
    (∀ msg, init_validate r.args = .error msg → extractor_run r = ([], some msg))
    ∧ (∀ u, init_validate r.args = .ok u → (extractor_run r).1.head? = some .probeCall)
    ∧ (∀ cmd, Event.ffmpegCall cmd ∈ (extractor_run r).1 →
        (extractor_run r).1 = [.probeCall, .ffmpegCall cmd]
        ∧ ∃ md, get_metadata r.probe (some ["duration", "avg_fps"]) = some md
          ∧ strategy_run r.strategy r.sampler (r.args.fps.map FpsArg.intv) (some md)
              r.args.start_time r.args.end_time r.reset_indices = .ok cmd) := by
  refine ⟨fun msg hmsg => ?_, fun u hu => ?_, fun cmd hmem => ?_⟩
  · simp only [extractor_run, hmsg]
  · rcases hmd : get_metadata r.probe (some ["duration", "avg_fps"]) with _ | md
    · simp only [extractor_run, hu, hmd, List.head?]
    · rcases hsr : strategy_run r.strategy r.sampler (r.args.fps.map FpsArg.intv) (some md)
          r.args.start_time r.args.end_time r.reset_indices with e | cmd
      · simp only [extractor_run, hu, hmd, hsr, List.head?]
      · simp only [extractor_run, hu, hmd, hsr, List.head?]
  · rcases hv : init_validate r.args with msg | u
    · simp only [extractor_run, hv] at hmem
      exact absurd hmem (List.not_mem_nil _)
    · rcases hmd : get_metadata r.probe (some ["duration", "avg_fps"]) with _ | md
      · simp only [extractor_run, hv, hmd] at hmem
        simp at hmem
      · rcases hsr : strategy_run r.strategy r.sampler (r.args.fps.map FpsArg.intv) (some md)
            r.args.start_time r.args.end_time r.reset_indices with e | c
        · simp only [extractor_run, hv, hmd, hsr] at hmem
          simp at hmem
        · simp only [extractor_run, hv, hmd, hsr] at hmem
          simp only [List.mem_cons, List.mem_singleton] at hmem
          rcases hmem with hmem | hmem | hmem
          · exact absurd hmem (by simp)
          · obtain rfl : cmd = c := by injection hmem
            exact ⟨by simp only [extractor_run, hv, hmd, hsr], md, rfl, hsr⟩
          · exact absurd hmem (List.not_mem_nil _)

/-- Witness for C4: a run whose video path does not exist issues no external
command at all. -/
theorem extractor_run_order_spec_witness :
    extractor_run ⟨⟨false, ".mp4", false, none, none, none, none⟩, .allFrames, .procFail,
        fun _ _ _ => [], false⟩
      = ([], some "Video path does not exist.") :=
  (extractor_run_order_spec ⟨⟨false, ".mp4", false, none, none, none, none⟩, .allFrames,
      .procFail, fun _ _ _ => [], false⟩).1
    "Video path does not exist." (by decide)

/-- C10: every failure inside the try block of `get_metadata` yields `None`
(the function never raises), and a run whose probe fails stops with the
`ValueError` message `Could not retrieve video metadata.` right after the
probe call, issuing no extraction command and never reaching the strategy. -/
theorem get_metadata_none_on_failure_spec :
    (∀ (outcome : ProbeOutcome) (fields : Option (List String)),
      (∃ e, get_metadata_inner outcome fields = .error e) → get_metadata outcome fields = none)
    ∧ (∀ fields, get_metadata .procFail fields = none ∧ get_metadata .parseFail fields = none)
    ∧ (∀ (r : RunInput) (u : Unit), init_validate r.args = .ok u →
        get_metadata r.probe (some ["duration", "avg_fps"]) = none →
        extractor_run r = ([.probeCall], some "Could not retrieve video metadata.")) := by
  refine ⟨fun outcome fields ⟨e, he⟩ => ?_, fun fields => ⟨rfl, rfl⟩, fun r u hu hmd => ?_⟩
  · rw [get_metadata, he]
    rfl
  · simp only [extractor_run, hu, hmd]

/-- Witness for C10: a run with valid constructor arguments whose probe
invocation fails stops with the metadata error after the probe call. -/
theorem get_metadata_none_on_failure_spec_witness :
    extractor_run ⟨⟨true, ".mp4", false, some true, some 5, some 0, some 2⟩, .allFrames,
        .procFail, fun _ _ _ => [], false⟩
      = ([.probeCall], some "Could not retrieve video metadata.") :=
  get_metadata_none_on_failure_spec.2.2
    ⟨⟨true, ".mp4", false, some true, some 5, some 0, some 2⟩, .allFrames, .procFail,
      fun _ _ _ => [], false⟩
    () (by decide) rfl

/-- The keys surviving the `fields` dict comprehension are exactly the
requested keys that appear in the dictionary, in request order. -/
theorem filterMap_lookup_keys (info : List (String × Val)) (fs : List String) :
    (fs.filterMap fun key => (info.lookup key).map fun v => (key, v)).map Prod.fst
      = fs.filter fun key => (info.lookup key).isSome := by
  induction fs with
  | nil => rfl
  | cons k t ih => cases h : info.lookup k <;> simp [h, ih]

/-- A key is present in `video_info` exactly when it is one of the six fixed
keys. -/
theorem video_info_lookup_isSome (st : StreamData) (key : String) :
    ((video_info st).lookup key).isSome
      = decide (key ∈ ["codec", "resolution", "avg_fps", "duration", "total_frames", "bitrate"]) := by
  by_cases h1 : key = "codec"
  · subst h1; simp [video_info, List.lookup]
  · by_cases h2 : key = "resolution"
    · subst h2; simp [video_info, List.lookup]
    · by_cases h3 : key = "avg_fps"
      · subst h3; simp [video_info, List.lookup]
      · by_cases h4 : key = "duration"
        · subst h4; simp [video_info, List.lookup]
        · by_cases h5 : key = "total_frames"
          · subst h5; simp [video_info, List.lookup]
          · by_cases h6 : key = "bitrate"
            · subst h6; simp [video_info, List.lookup]
            · simp [video_info, List.lookup, h1, h2, h3, h4, h5, h6,
                beq_eq_false_iff_ne.mpr h1, beq_eq_false_iff_ne.mpr h2,
                beq_eq_false_iff_ne.mpr h3, beq_eq_false_iff_ne.mpr h4,
                beq_eq_false_iff_ne.mpr h5, beq_eq_false_iff_ne.mpr h6]

/-- C6 (amended): when the probe succeeds, `get_metadata` without a fields
argument returns a dictionary with exactly the six keys `codec`,
`resolution`, `avg_fps`, `duration`, `total_frames`, `bitrate`; with a
NON-EMPTY fields list it returns exactly the subset of those entries whose
keys appear in the list; with an EMPTY fields list (falsy in Python, like
`None`) it returns the full dictionary. -/
theorem get_metadata_fields_spec (st : StreamData) :
    (get_metadata (.ok st) none = some (video_info st)
      ∧ (video_info st).map Prod.fst
        = ["codec", "resolution", "avg_fps", "duration", "total_frames", "bitrate"])
    ∧ (∀ fs : List String, fs ≠ [] →
        get_metadata (.ok st) (some fs)
          = some (fs.filterMap fun key => ((video_info st).lookup key).map fun v => (key, v))
        ∧ (fs.filterMap fun key => ((video_info st).lookup key).map fun v => (key, v)).map
            Prod.fst
          = fs.filter fun key =>
              decide (key ∈ ["codec", "resolution", "avg_fps", "duration", "total_frames",
                "bitrate"]))
    ∧ get_metadata (.ok st) (some []) = some (video_info st) := by
  refine ⟨⟨rfl, rfl⟩, fun fs hfs => ⟨?_, ?_⟩, rfl⟩
  · simp only [get_metadata, get_metadata_inner]
    rw [if_neg (by simpa using hfs)]
    rfl
  · rw [filterMap_lookup_keys]
    simp only [video_info_lookup_isSome]

/-- Counterexample for C6 as stated: called with an EMPTY fields list, the
code returns the full six-entry dictionary, not the empty subset of entries
whose keys appear in the list. -/
theorem get_metadata_fields_counterexample :
    get_metadata (.ok ⟨none, none, none, 30, 10, 300, 4500⟩) (some [])
      ≠ some (([] : List String).filterMap fun key =>
          ((video_info ⟨none, none, none, 30, 10, 300, 4500⟩).lookup key).map
            fun v => (key, v)) := by
  decide

/-- Witness for C6 (amended): requesting `duration` and `avg_fps` returns
exactly those two entries. -/
theorem get_metadata_fields_spec_witness :
    get_metadata (.ok ⟨none, none, none, 30, 10, 300, 4500⟩) (some ["duration", "avg_fps"])
      = some [("duration", Val.vq 10), ("avg_fps", Val.vq 30)] := by
  have h := ((get_metadata_fields_spec ⟨none, none, none, 30, 10, 300, 4500⟩).2.1
    ["duration", "avg_fps"] (by decide)).1
  rw [h]
  decide

end VFE
